import Mathlib

/-!
Shallow embedding of `chatbotwithvoice.py`, a Streamlit voice/text chat
client.  The session state (`st.session_state["messages"]`,
`st.session_state["last_record_path"]`) together with the temp files on
disk form the state type `AppState`.  External effects (the sounddevice
capture, the Whisper transcription endpoint, the chat-completion
endpoint, `os.remove`) are modelled by oracle parameters giving each
call's outcome; the handlers are translated line by line into pure
state-transformers.
-/

namespace Chatbot

/-- Python string-method whitespace (`str.strip()` with no argument):
space, tab, newline, carriage return, vertical tab, form feed. -/
def isPySpace (c : Char) : Bool :=
  c = ' ' || c = '\t' || c = '\n' || c = '\x0d' || c = '\x0b' || c = '\x0c'

/-- Python's `s.strip()`: drop leading and trailing whitespace. -/
def pyStrip (s : String) : String :=
  ⟨((s.data.dropWhile isPySpace).reverse.dropWhile isPySpace).reverse⟩

/-- A message role, as stored in the `"role"` field of a message dict. -/
inductive Role
  | system
  | user
  | assistant
deriving DecidableEq, Repr, BEq

/-- One conversation message: `{"role": ..., "content": ...}`. -/
structure Turn where
  role : Role
  content : String
deriving DecidableEq, Repr

/-- The application state: the `messages` list and `last_record_path`
from `st.session_state`, plus the set (as a list) of temp wav files
currently existing on disk, so that file creation/deletion can be
observed. -/
structure AppState where
  messages : List Turn
  lastRecordPath : Option String
  files : List String
deriving DecidableEq, Repr

/-- The initial `messages` value: a single system turn
(`chatbotwithvoice.py` line 60). -/
def initialMessages : List Turn :=
  [⟨Role.system, "You are a helpful, concise AI assistant."⟩]

/-- The state at session start: initial messages, no current recording,
no temp files yet (lines 59-62). -/
def initState : AppState :=
  { messages := initialMessages, lastRecordPath := none, files := [] }

/-- Outcome of the sounddevice capture inside `record_local`'s `try`
block: success, an exception because no input device is present, or a
device-level I/O exception. -/
inductive SdOutcome
  | ok
  | deviceUnavailable
  | ioError
deriving DecidableEq, Repr

/-- The raw capture buffer: `sd.rec(int(duration_seconds * samplerate),
samplerate=samplerate, channels=1, ...)` (line 76). -/
structure Recording where
  frames : Nat
  channels : Nat
deriving DecidableEq, Repr

/-- `record_local` (lines 67-83): returns `None` when the sounddevice
library is missing, records `int(duration_seconds * samplerate)` frames
on one channel, writes them to a fresh temp file and returns its path on
success, and returns `None` (after `st.error`) when the capture raises.
We also return the captured buffer so its shape can be stated. -/
def record_local (haveSd : Bool) (outcome : SdOutcome)
    (duration_seconds samplerate : Nat) (tmpName : String) :
    Option (String × Recording) :=
  if haveSd then
    match outcome with
    | SdOutcome.ok =>
        some (tmpName, { frames := duration_seconds * samplerate, channels := 1 })
    | SdOutcome.deviceUnavailable => none
    | SdOutcome.ioError => none
  else none

/-- `transcribe_with_openai_whisper` (lines 85-96): on service success
returns `transcript.text.strip()`, on any exception returns `None`.
The oracle `service` is the raw `transcript.text` (or `none` for an
exception). -/
def transcribe_with_openai_whisper (service : Option String) : Option String :=
  match service with
  | some raw => some (pyStrip raw)
  | none => none

/-- The chat-completion response body: the `message.content` of each
choice. -/
structure ChatResponse where
  choices : List String
deriving DecidableEq, Repr

/-- The request built by `call_openai_chat` (lines 120-124): hard-coded
model `"gpt-4o-mini"`, the full messages list, temperature `0.6`. -/
structure ChatRequest where
  model : String
  messages : List Turn
  temperature : ℚ
deriving DecidableEq, Repr

/-- The request `client.chat.completions.create(...)` is called with
(lines 120-124). -/
def chatRequest (messages : List Turn) : ChatRequest :=
  { model := "gpt-4o-mini", messages := messages, temperature := 0.6 }

/-- The model selectbox options (line 134): the configured chat model is
chosen from this list. -/
def modelOptions : List String := ["gpt-4o-mini"]

/-- `call_openai_chat` (lines 117-128): returns
`response.choices[0].message.content.strip()`, or `None` when the call
raises (which includes an empty `choices` list, since `choices[0]` then
raises inside the `try`). -/
def call_openai_chat (messages : List Turn) (service : Option ChatResponse) :
    Option String :=
  match service with
  | none => none
  | some resp =>
      match resp.choices with
      | [] => none
      | c :: _ =>
          let _req := chatRequest messages
          some (pyStrip c)

/-- The placeholder assistant reply substituted on completion failure
(lines 182 and 213). -/
def placeholderReply : String := "⚠️ Could not get a reply from OpenAI."

/-- `st.session_state["messages"].append(turn)`. -/
def appendTurn (messages : List Turn) (t : Turn) : List Turn :=
  messages ++ [t]

/-- The shared user-turn/assistant-reply block (lines 176-184 on the
voice path, 206-215 on the text path): append the user turn, call the
completion endpoint on the full list, substitute the placeholder when it
returns `None`, append the assistant turn. -/
def chatExchange (messages : List Turn) (userContent : String)
    (completion : Option ChatResponse) : List Turn :=
  let messages1 := appendTurn messages ⟨Role.user, userContent⟩
  let reply := (call_openai_chat messages1 completion).getD placeholderReply
  appendTurn messages1 ⟨Role.assistant, reply⟩

/-- The Record button handler (lines 158-189).  When the library is
missing it only shows an error; otherwise it records, and on success
stores the new path as `last_record_path` (the temp file now exists on
disk), transcribes, and when the transcript is truthy (non-`None` and
non-empty) runs the chat exchange. -/
def recordButtonHandler (haveSd : Bool) (outcome : SdOutcome)
    (tmpName : String) (duration_seconds samplerate : Nat)
    (transcriptSvc : Option String) (completion : Option ChatResponse)
    (s : AppState) : AppState :=
  if haveSd then
    match record_local haveSd outcome duration_seconds samplerate tmpName with
    | none => s
    | some (wavPath, _) =>
        let s1 := { s with lastRecordPath := some wavPath,
                           files := s.files ++ [wavPath] }
        match transcribe_with_openai_whisper transcriptSvc with
        | none => s1
        | some text =>
            if text = "" then s1
            else { s1 with messages := chatExchange s1.messages text completion }
  else s

/-- The "Clear last recording" button handler (lines 191-198): if a
current path exists, try `os.remove` (failure swallowed), then set the
pointer to `None`.  `removeOk` is the outcome of the `os.remove`
attempt. -/
def clearLastRecordingHandler (removeOk : Bool) (s : AppState) : AppState :=
  let files' :=
    match s.lastRecordPath with
    | some p => if removeOk then s.files.filter (· ≠ p) else s.files
    | none => s.files
  { s with lastRecordPath := none, files := files' }

/-- The text chat handler (lines 203-217): fires when `st.chat_input`
returned a truthy (non-`None`, non-empty) string; strips it, then runs
the chat exchange. -/
def textChatHandler (input : Option String) (completion : Option ChatResponse)
    (s : AppState) : AppState :=
  match input with
  | none => s
  | some t =>
      if t = "" then s
      else
        { s with messages := chatExchange s.messages (pyStrip t) completion }

/-- The "Clear Chat" button handler (lines 222-225): keep only
`messages[0]` (the messages list is never empty in any reachable state)
and clear the current-recording pointer.  No file is removed. -/
def clearChatHandler (s : AppState) : AppState :=
  { s with messages := s.messages.take 1, lastRecordPath := none }

/-- One user action per Streamlit rerun, bundled with the outcomes of
the external calls it makes. -/
inductive UserAction
  | record (haveSd : Bool) (outcome : SdOutcome) (tmpName : String)
      (duration_seconds samplerate : Nat) (transcriptSvc : Option String)
      (completion : Option ChatResponse)
  | clearLast (removeOk : Bool)
  | textSubmit (input : Option String) (completion : Option ChatResponse)
  | clearChat
deriving Repr

/-- Dispatch one user action. -/
def step : UserAction → AppState → AppState
  | UserAction.record haveSd outcome tmpName d sr tsvc comp, s =>
      recordButtonHandler haveSd outcome tmpName d sr tsvc comp s
  | UserAction.clearLast removeOk, s => clearLastRecordingHandler removeOk s
  | UserAction.textSubmit input comp, s => textChatHandler input comp s
  | UserAction.clearChat, s => clearChatHandler s

/-- Run a sequence of user actions from session start. -/
def runActions (acts : List UserAction) : AppState :=
  acts.foldl (fun s a => step a s) initState

/-- `pairsUA l` holds when `l` is a sequence of user/assistant pairs:
each user turn immediately followed by exactly one assistant turn. -/
def pairsUA : List Turn → Bool
  | [] => true
  | [_] => false
  | u :: a :: l => u.role == Role.user && a.role == Role.assistant && pairsUA l

/-- The conversation-shape invariant: one leading system turn followed
by alternating user/assistant pairs. -/
def goodShape : List Turn → Bool
  | [] => false
  | t :: rest => t.role == Role.system && pairsUA rest

/-! ### Helper lemmas -/

theorem chatExchange_eq (messages : List Turn) (c : String)
    (comp : Option ChatResponse) :
    chatExchange messages c comp =
      messages ++ [⟨Role.user, c⟩,
        ⟨Role.assistant,
          (call_openai_chat (messages ++ [⟨Role.user, c⟩]) comp).getD
            placeholderReply⟩] := by
  simp [chatExchange, appendTurn]

theorem pairsUA_append : ∀ (l : List Turn) (cu ca : String),
    pairsUA l = true →
    pairsUA (l ++ [⟨Role.user, cu⟩, ⟨Role.assistant, ca⟩]) = true
  | [], _, _, _ => by simp [pairsUA]; exact ⟨rfl, rfl⟩
  | [_], _, _, h => by simp [pairsUA] at h
  | u :: a :: l, cu, ca, h => by
      simp only [pairsUA, Bool.and_eq_true] at h
      simp only [List.cons_append, pairsUA, Bool.and_eq_true]
      exact ⟨h.1, pairsUA_append l cu ca h.2⟩

theorem goodShape_chatExchange (messages : List Turn) (c : String)
    (comp : Option ChatResponse) (h : goodShape messages = true) :
    goodShape (chatExchange messages c comp) = true := by
  cases messages with
  | nil => simp [goodShape] at h
  | cons t rest =>
      rw [chatExchange_eq]
      simp only [goodShape, Bool.and_eq_true] at h
      simp only [List.cons_append, goodShape, Bool.and_eq_true]
      exact ⟨h.1, pairsUA_append _ _ _ h.2⟩

theorem goodShape_step (a : UserAction) (s : AppState)
    (h : goodShape s.messages = true) : goodShape (step a s).messages = true := by
  cases a with
  | record haveSd outcome tmpName d sr tsvc comp =>
      cases haveSd with
      | false => simpa [step, recordButtonHandler] using h
      | true =>
          cases outcome with
          | ok =>
              cases tsvc with
              | none =>
                  simpa [step, recordButtonHandler, record_local,
                    transcribe_with_openai_whisper] using h
              | some raw =>
                  by_cases hz : pyStrip raw = ""
                  · simpa [step, recordButtonHandler, record_local,
                      transcribe_with_openai_whisper, hz] using h
                  · simp [step, recordButtonHandler, record_local,
                      transcribe_with_openai_whisper, hz]
                    exact goodShape_chatExchange _ _ _ h
          | deviceUnavailable =>
              simpa [step, recordButtonHandler, record_local] using h
          | ioError =>
              simpa [step, recordButtonHandler, record_local] using h
  | clearLast removeOk => simpa [step, clearLastRecordingHandler] using h
  | textSubmit input comp =>
      cases input with
      | none => simpa [step, textChatHandler] using h
      | some t =>
          by_cases ht : t = ""
          · simpa [step, textChatHandler, ht] using h
          · simp [step, textChatHandler, ht]
            exact goodShape_chatExchange _ _ _ h
  | clearChat =>
      cases hm : s.messages with
      | nil => simp [goodShape, hm] at h
      | cons t rest =>
          rw [hm] at h
          simp only [goodShape, Bool.and_eq_true] at h
          simp only [step, clearChatHandler, hm, List.take, goodShape,
            Bool.and_eq_true]
          exact ⟨h.1, by simp [pairsUA]⟩

theorem pyStrip_of_all_space (input : String)
    (hws : ∀ c ∈ input.data, isPySpace c = true) : pyStrip input = "" := by
  have h1 : input.data.dropWhile isPySpace = [] :=
    List.dropWhile_eq_nil_iff.mpr hws
  simp [pyStrip, h1]

/-! ### Claim theorems -/

/-- C1: on a completion failure (the chat call returns no reply), the
handler appends exactly one assistant turn whose content is the fixed
placeholder text, after the user turn, and all prior turns are kept (the
session is not aborted) — on both the text path and the voice path. -/
theorem completion_failure_placeholder (s : AppState) (input : String)
    (hin : input ≠ "") (tmpName : String) (d sr : Nat) (raw : String)
    (hraw : pyStrip raw ≠ "") :
    (textChatHandler (some input) none s).messages =
      s.messages ++ [⟨Role.user, pyStrip input⟩,
        ⟨Role.assistant, placeholderReply⟩] ∧
    (recordButtonHandler true SdOutcome.ok tmpName d sr (some raw) none
        s).messages =
      s.messages ++ [⟨Role.user, pyStrip raw⟩,
        ⟨Role.assistant, placeholderReply⟩] := by
  constructor
  · simp [textChatHandler, hin, chatExchange_eq, call_openai_chat]
  · simp [recordButtonHandler, record_local, transcribe_with_openai_whisper,
      hraw, chatExchange_eq, call_openai_chat]

/-- C1 witness at a concrete state and inputs. -/
theorem completion_failure_placeholder_witness :
    (textChatHandler (some "hello") none initState).messages =
      initState.messages ++ [⟨Role.user, pyStrip "hello"⟩,
        ⟨Role.assistant, placeholderReply⟩] ∧
    (recordButtonHandler true SdOutcome.ok "t.wav" 4 44100 (some " hi ") none
        initState).messages =
      initState.messages ++ [⟨Role.user, pyStrip " hi "⟩,
        ⟨Role.assistant, placeholderReply⟩] :=
  completion_failure_placeholder initState "hello" (by decide) "t.wav" 4 44100
    " hi " (by decide)

/-- C2: when transcription of a successful recording fails (`None`) or
strips to the empty string, the messages sequence is unchanged: no user
turn is appended. -/
theorem transcription_failure_no_user_turn (s : AppState) (tmpName : String)
    (d sr : Nat) (comp : Option ChatResponse) (tsvc : Option String)
    (h : transcribe_with_openai_whisper tsvc = none ∨
         transcribe_with_openai_whisper tsvc = some "") :
    (recordButtonHandler true SdOutcome.ok tmpName d sr tsvc comp s).messages
      = s.messages := by
  rcases h with h | h <;>
    simp [recordButtonHandler, record_local, h]

/-- C2 witness: a transcription-service failure at a concrete state. -/
theorem transcription_failure_no_user_turn_witness :
    (recordButtonHandler true SdOutcome.ok "t.wav" 4 44100 none none
        initState).messages = initState.messages :=
  transcription_failure_no_user_turn initState "t.wav" 4 44100 none none
    (Or.inl rfl)

/-- C3: Clear Chat keeps exactly the leading (system) turn — a sequence
of length 1 whose sole element has role `system` — and clears the
current-recording pointer. -/
theorem clearChat_resets (s : AppState) (t0 : Turn)
    (h0 : s.messages.head? = some t0) (hs : t0.role = Role.system) :
    (clearChatHandler s).messages = [t0] ∧
    (clearChatHandler s).messages.length = 1 ∧
    (∀ u ∈ (clearChatHandler s).messages, u.role = Role.system) ∧
    (clearChatHandler s).lastRecordPath = none := by
  cases hmm : s.messages with
  | nil => rw [hmm] at h0; simp at h0
  | cons a l =>
      rw [hmm] at h0
      simp only [List.head?_cons, Option.some.injEq] at h0
      subst h0
      refine ⟨?_, ?_, ?_, rfl⟩
      · simp [clearChatHandler, hmm]
      · simp [clearChatHandler, hmm]
      · intro u hu
        simp [clearChatHandler, hmm] at hu
        rw [hu]
        exact hs

/-- C3 witness at a concrete mid-conversation state. -/
theorem clearChat_resets_witness :
    (clearChatHandler
        { messages := initialMessages ++ [⟨Role.user, "hi"⟩,
            ⟨Role.assistant, "yo"⟩],
          lastRecordPath := some "t.wav", files := ["t.wav"] }).messages =
      [⟨Role.system, "You are a helpful, concise AI assistant."⟩] ∧
    (clearChatHandler
        { messages := initialMessages ++ [⟨Role.user, "hi"⟩,
            ⟨Role.assistant, "yo"⟩],
          lastRecordPath := some "t.wav", files := ["t.wav"] }).messages.length = 1 ∧
    (∀ u ∈ (clearChatHandler
        { messages := initialMessages ++ [⟨Role.user, "hi"⟩,
            ⟨Role.assistant, "yo"⟩],
          lastRecordPath := some "t.wav", files := ["t.wav"] }).messages,
        u.role = Role.system) ∧
    (clearChatHandler
        { messages := initialMessages ++ [⟨Role.user, "hi"⟩,
            ⟨Role.assistant, "yo"⟩],
          lastRecordPath := some "t.wav", files := ["t.wav"] }).lastRecordPath
      = none :=
  clearChat_resets _ ⟨Role.system, "You are a helpful, concise AI assistant."⟩
    rfl rfl

/-- C4: `append` keeps all prior turns as a prefix (same order, nothing
removed), increases the length by exactly one, and leaves the element at
index 0 — the system turn — unchanged. -/
theorem append_preserves (messages : List Turn) (t : Turn) (t0 : Turn)
    (h0 : messages.head? = some t0) (hs : t0.role = Role.system) :
    (appendTurn messages t).length = messages.length + 1 ∧
    messages <+: appendTurn messages t ∧
    (appendTurn messages t).head? = some t0 ∧ t0.role = Role.system := by
  refine ⟨by simp [appendTurn], ⟨[t], rfl⟩, ?_, hs⟩
  cases messages with
  | nil => simp at h0
  | cons a l => simpa [appendTurn] using h0

/-- C4 witness at the initial conversation. -/
theorem append_preserves_witness :
    (appendTurn initialMessages ⟨Role.user, "hi"⟩).length =
      initialMessages.length + 1 ∧
    initialMessages <+: appendTurn initialMessages ⟨Role.user, "hi"⟩ ∧
    (appendTurn initialMessages ⟨Role.user, "hi"⟩).head? =
      some ⟨Role.system, "You are a helpful, concise AI assistant."⟩ ∧
    (Turn.mk Role.system "You are a helpful, concise AI assistant.").role =
      Role.system :=
  append_preserves initialMessages ⟨Role.user, "hi"⟩
    ⟨Role.system, "You are a helpful, concise AI assistant."⟩ rfl rfl

/-- C5: for any duration in [1,20] and positive sample rate, a
successfully completed recording captures exactly
`duration_seconds * samplerate` frames on one channel. -/
theorem record_sample_count (d sr : Nat) (_hd1 : 1 ≤ d) (_hd2 : d ≤ 20)
    (_hsr : 0 < sr) (tmpName path : String) (r : Recording)
    (hrec : record_local true SdOutcome.ok d sr tmpName = some (path, r)) :
    r.frames = d * sr ∧ r.channels = 1 := by
  simp [record_local] at hrec
  rw [← hrec.2]
  exact ⟨rfl, rfl⟩

/-- C5 witness: a 4-second recording at 44100 Hz. -/
theorem record_sample_count_witness :
    (Recording.mk (4 * 44100) 1).frames = 4 * 44100 ∧
    (Recording.mk (4 * 44100) 1).channels = 1 :=
  record_sample_count 4 44100 (by decide) (by decide) (by decide)
    "t.wav" "t.wav" (Recording.mk (4 * 44100) 1) rfl

/-- C6 counterexample: with a previous recording `"old.wav"` current and
on disk, pressing Record (successful capture to `"new.wav"`) leaves
`"old.wav"` on disk — it is not deleted, only the pointer moves — and
the full reset (Clear Chat) also leaves `"old.wav"` on disk. -/
theorem record_does_not_delete_previous :
    (step (UserAction.record true SdOutcome.ok "new.wav" 4 44100 none none)
        { messages := initialMessages, lastRecordPath := some "old.wav",
          files := ["old.wav"] }).files = ["old.wav", "new.wav"] ∧
    (step (UserAction.record true SdOutcome.ok "new.wav" 4 44100 none none)
        { messages := initialMessages, lastRecordPath := some "old.wav",
          files := ["old.wav"] }).lastRecordPath = some "new.wav" ∧
    (clearChatHandler
        { messages := initialMessages, lastRecordPath := some "old.wav",
          files := ["old.wav"] }).files = ["old.wav"] ∧
    (clearChatHandler
        { messages := initialMessages, lastRecordPath := some "old.wav",
          files := ["old.wav"] }).lastRecordPath = none := by
  refine ⟨rfl, ?_, rfl, rfl⟩
  simp [step, recordButtonHandler, record_local, transcribe_with_openai_whisper]

/-- C6 amended: at most one recording is current at a time — Record
replaces the pointer with the new file, and clear-last-recording and the
full reset set it to `none` — but only the explicit clear-last-recording
action best-effort-deletes the file (a failed deletion is swallowed,
leaving the files unchanged); Record and the full reset leave the
previous file on disk. -/
theorem current_recording_singleton (s : AppState) (tmpName : String)
    (d sr : Nat) (tsvc : Option String) (comp : Option ChatResponse)
    (p : String) (hp : s.lastRecordPath = some p) :
    (recordButtonHandler true SdOutcome.ok tmpName d sr tsvc comp
        s).lastRecordPath = some tmpName ∧
    (clearLastRecordingHandler true s).lastRecordPath = none ∧
    p ∉ (clearLastRecordingHandler true s).files ∧
    (clearLastRecordingHandler false s).lastRecordPath = none ∧
    (clearLastRecordingHandler false s).files = s.files ∧
    (clearChatHandler s).lastRecordPath = none ∧
    (clearChatHandler s).files = s.files := by
  refine ⟨?_, rfl, ?_, rfl, ?_, rfl, rfl⟩
  · cases tsvc with
    | none =>
        simp [recordButtonHandler, record_local, transcribe_with_openai_whisper]
    | some raw =>
        by_cases hz : pyStrip raw = "" <;>
          simp [recordButtonHandler, record_local,
            transcribe_with_openai_whisper, hz]
  · simp [clearLastRecordingHandler, hp, List.mem_filter]
  · simp [clearLastRecordingHandler, hp]

/-- C6 amended witness at a concrete state with a current recording. -/
theorem current_recording_singleton_witness :
    (recordButtonHandler true SdOutcome.ok "new.wav" 4 44100 none none
        { messages := initialMessages, lastRecordPath := some "old.wav",
          files := ["old.wav"] }).lastRecordPath = some "new.wav" ∧
    (clearLastRecordingHandler true
        { messages := initialMessages, lastRecordPath := some "old.wav",
          files := ["old.wav"] }).lastRecordPath = none ∧
    "old.wav" ∉ (clearLastRecordingHandler true
        { messages := initialMessages, lastRecordPath := some "old.wav",
          files := ["old.wav"] }).files ∧
    (clearLastRecordingHandler false
        { messages := initialMessages, lastRecordPath := some "old.wav",
          files := ["old.wav"] }).lastRecordPath = none ∧
    (clearLastRecordingHandler false
        { messages := initialMessages, lastRecordPath := some "old.wav",
          files := ["old.wav"] }).files =
      ({ messages := initialMessages, lastRecordPath := some "old.wav",
          files := ["old.wav"] } : AppState).files ∧
    (clearChatHandler
        { messages := initialMessages, lastRecordPath := some "old.wav",
          files := ["old.wav"] }).lastRecordPath = none ∧
    (clearChatHandler
        { messages := initialMessages, lastRecordPath := some "old.wav",
          files := ["old.wav"] }).files =
      ({ messages := initialMessages, lastRecordPath := some "old.wav",
          files := ["old.wav"] } : AppState).files :=
  current_recording_singleton _ "new.wav" 4 44100 none none "old.wav" rfl

/-- C7: the completion request carries the full ordered messages list
(with its leading system turn), a fixed temperature 0.6, and the
configured model identifier (the selectbox's only option, which is also
the hard-coded request model), and the call returns the stripped text of
the first completion choice. -/
theorem chat_request_spec (messages : List Turn) (configured : String)
    (hc : configured ∈ modelOptions) (t0 : Turn)
    (h0 : messages.head? = some t0) (resp : ChatResponse) (c : String)
    (cs : List String) (hr : resp.choices = c :: cs) :
    (chatRequest messages).model = configured ∧
    (chatRequest messages).messages = messages ∧
    (chatRequest messages).messages.head? = some t0 ∧
    (chatRequest messages).temperature = 0.6 ∧
    call_openai_chat messages (some resp) = some (pyStrip c) := by
  have hcfg : configured = "gpt-4o-mini" := by
    simpa [modelOptions] using hc
  refine ⟨by simp [chatRequest, hcfg], rfl, by simpa [chatRequest] using h0,
    rfl, ?_⟩
  simp [call_openai_chat, hr]

/-- C7 witness at the initial conversation and a one-choice response. -/
theorem chat_request_spec_witness :
    (chatRequest initialMessages).model = "gpt-4o-mini" ∧
    (chatRequest initialMessages).messages = initialMessages ∧
    (chatRequest initialMessages).messages.head? =
      some ⟨Role.system, "You are a helpful, concise AI assistant."⟩ ∧
    (chatRequest initialMessages).temperature = 0.6 ∧
    call_openai_chat initialMessages (some ⟨[" ok "]⟩) =
      some (pyStrip " ok ") :=
  chat_request_spec initialMessages "gpt-4o-mini" (by simp [modelOptions])
    ⟨Role.system, "You are a helpful, concise AI assistant."⟩ rfl
    ⟨[" ok "]⟩ " ok " [] rfl

/-- C8 counterexample: a missing input device and a device-level I/O
error produce the identical result `none` from `record_local`, so the
caller cannot distinguish them. -/
theorem device_unavailable_not_distinct :
    record_local true SdOutcome.deviceUnavailable 4 44100 "t.wav" =
      record_local true SdOutcome.ioError 4 44100 "t.wav" ∧
    record_local true SdOutcome.deviceUnavailable 4 44100 "t.wav" = none :=
  ⟨rfl, rfl⟩

/-- C8 amended: every recording failure — missing input device,
device-level I/O error, or absent audio library — returns the same
`none` from `record_local`; only the missing-library condition is
detected separately, by the Record handler checking the library flag
itself before recording (in which case the handler changes nothing). -/
theorem recording_failures_collapse (d sr : Nat) (tmpName : String)
    (outcome : SdOutcome) (ho : outcome ≠ SdOutcome.ok) (s : AppState)
    (tsvc : Option String) (comp : Option ChatResponse) :
    record_local true outcome d sr tmpName = none ∧
    record_local false outcome d sr tmpName = none ∧
    recordButtonHandler false outcome tmpName d sr tsvc comp s = s := by
  refine ⟨?_, rfl, rfl⟩
  cases outcome with
  | ok => exact absurd rfl ho
  | deviceUnavailable => rfl
  | ioError => rfl

/-- C8 amended witness at a concrete failure. -/
theorem recording_failures_collapse_witness :
    record_local true SdOutcome.deviceUnavailable 4 44100 "t.wav" = none ∧
    record_local false SdOutcome.deviceUnavailable 4 44100 "t.wav" = none ∧
    recordButtonHandler false SdOutcome.deviceUnavailable "t.wav" 4 44100
      none none initState = initState :=
  recording_failures_collapse 4 44100 "t.wav" SdOutcome.deviceUnavailable
    (by decide) initState none none

/-- C9: a non-empty submission consisting only of whitespace is still
processed — a user turn with empty content is appended and the
completion call is made on the extended list — while an empty submission
(or none at all) leaves the state unchanged. -/
theorem whitespace_only_input_processed (s : AppState) (input : String)
    (hne : input ≠ "") (hws : ∀ c ∈ input.data, isPySpace c = true)
    (comp : Option ChatResponse) :
    (textChatHandler (some input) comp s).messages =
      s.messages ++ [⟨Role.user, ""⟩,
        ⟨Role.assistant,
          (call_openai_chat (s.messages ++ [⟨Role.user, ""⟩]) comp).getD
            placeholderReply⟩] ∧
    textChatHandler (some "") comp s = s ∧
    textChatHandler none comp s = s := by
  have hstrip : pyStrip input = "" := pyStrip_of_all_space input hws
  refine ⟨?_, by simp [textChatHandler], rfl⟩
  simp [textChatHandler, hne, hstrip, chatExchange_eq]

/-- C9 witness: a single-space submission at the initial state. -/
theorem whitespace_only_input_processed_witness :
    (textChatHandler (some " ") none initState).messages =
      initState.messages ++ [⟨Role.user, ""⟩,
        ⟨Role.assistant,
          (call_openai_chat (initState.messages ++ [⟨Role.user, ""⟩])
              none).getD placeholderReply⟩] ∧
    textChatHandler (some "") none initState = initState ∧
    textChatHandler none none initState = initState :=
  whitespace_only_input_processed initState " " (by decide) (by decide) none

/-- C10: after any sequence of completed user-action handlers starting
from session start, the conversation has the shape of one system turn
followed by alternating user/assistant pairs — every user turn is
immediately followed by exactly one assistant turn. -/
theorem conversation_shape_invariant (acts : List UserAction) :
    goodShape (runActions acts).messages = true := by
  have hgen : ∀ (l : List UserAction) (s : AppState),
      goodShape s.messages = true →
      goodShape (l.foldl (fun s a => step a s) s).messages = true := by
    intro l
    induction l with
    | nil => intro s hs; simpa using hs
    | cons a l ih => intro s hs; exact ih _ (goodShape_step a s hs)
  exact hgen acts initState (by decide)

end Chatbot
